import Mathlib

/-
Verification development for the Datadog downtime resource adapter
(datadog/resource_datadog_downtime.go).

The Go module is shallowly embedded: the remote `datadogV1.Downtime` struct
becomes a record of optional fields (a generated setter `SetX v` stores
`some v`, a getter `GetX` reads the value or the zero value), the terraform
`*schema.ResourceData` configuration becomes a record in which an optional
attribute is `Option`-valued with `none` standing for the states in which
`d.GetOk` reports the attribute as not set (unset, or set to the zero value,
which `GetOk` cannot distinguish), and the remote client calls become
explicit result values passed into the lifecycle functions.  External
collaborators (the RFC3339 parser of the Go standard library, the drift
information behind `d.HasChange`, the remote API client) are passed in as
function or data parameters.  State writes (`d.Set`) are modelled by an
oracle saying which writes succeed, and the performed writes are returned
explicitly so that theorems can speak about them.
-/

/-- Outcome of a Go function that can return a value, return an error, or
crash with a nil-pointer dereference (a Go runtime panic). -/
inductive Outcome (α : Type) where
  | ok (val : α)
  | err (msg : String)
  | nilDeref
deriving DecidableEq, Repr

/-- Modelled from the spec: `utils.TranslateClientError` (external helper,
not part of this file) converts a raw client error into a normalized error
carrying the failing host and a contextual message. -/
def translateClientError (e host msg : String) : String :=
  msg ++ ": host " ++ host ++ ": " ++ e

/-- The part of an `*http.Response` the module reads: the status code, and
the host reached through `httpresp.Request.URL.Host`. -/
structure HTTPResp where
  statusCode : Int
  host : String
deriving DecidableEq, Repr

/-- The remote `datadogV1.DowntimeRecurrence` struct: every field is a
pointer in Go, hence `Option` here.  `rtype` embeds the Go field `Type`. -/
structure DowntimeRecurrence where
  period : Option Int := none
  rtype : Option String := none
  untilDate : Option Int := none
  untilOccurrences : Option Int := none
  weekDays : Option (List String) := none
  rrule : Option String := none
deriving DecidableEq, Repr

/-- The remote `datadogV1.Downtime` struct (the fields this module touches):
every field is a pointer in Go, hence `Option` here.  A generated setter
`SetX v` stores `some v`; `GetX` dereferences or returns the zero value. -/
structure Downtime where
  active : Option Bool := none
  canceled : Option Int := none
  disabled : Option Bool := none
  dtEnd : Option Int := none
  id : Option Int := none
  message : Option String := none
  monitorId : Option Int := none
  monitorTags : Option (List String) := none
  recurrence : Option DowntimeRecurrence := none
  scope : Option (List String) := none
  start : Option Int := none
  timezone : Option String := none
deriving DecidableEq, Repr

/-- Go getter `GetActive`: dereference or zero value. -/
def Downtime.GetActive (dt : Downtime) : Bool := dt.active.getD false

/-- Go getter `GetDisabled`. -/
def Downtime.GetDisabled (dt : Downtime) : Bool := dt.disabled.getD false

/-- Go getter `GetEnd`. -/
def Downtime.GetEnd (dt : Downtime) : Int := dt.dtEnd.getD 0

/-- Go getter `GetStart`. -/
def Downtime.GetStart (dt : Downtime) : Int := dt.start.getD 0

/-- Go getter `GetMessage`. -/
def Downtime.GetMessage (dt : Downtime) : String := dt.message.getD ""

/-- Go getter `GetTimezone`. -/
def Downtime.GetTimezone (dt : Downtime) : String := dt.timezone.getD ""

/-- Go getter `GetScope` (used for the `d.Set` of `dt.Scope`, which writes
the dereferenced list, or the empty list for a nil pointer). -/
def Downtime.GetScope (dt : Downtime) : List String := dt.scope.getD []

/-- Go getter `GetMonitorTags`: the dereferenced slice, or the nil slice. -/
def Downtime.GetMonitorTags (dt : Downtime) : List String := dt.monitorTags.getD []

/-- Result of a remote client call such as `GetDowntime` or
`UpdateDowntime`: the returned resource (zero value when the call failed),
the HTTP response — which is absent when the failure happened before any
response, e.g. a network error — and the error. -/
structure FetchResult where
  dt : Downtime := {}
  httpresp : Option HTTPResp := none
  clientErr : Option String := none
deriving DecidableEq, Repr

/-- The sub-block of the local configuration holding one `recurrence`
element.  Each attribute is `Option`-valued; `none` means `d.GetOk` on
`recurrence.0.<attr>` reports not-set (absent, or the zero value: `0`,
the empty string, the empty list). -/
structure RecurrenceConfig where
  period : Option Int := none
  rtype : Option String := none
  untilDate : Option Int := none
  untilOccurrences : Option Int := none
  weekDays : Option (List String) := none
  rrule : Option String := none
deriving DecidableEq, Repr

/-- The local downtime configuration (`*schema.ResourceData`).  Optional
attributes are `Option`-valued with `none` meaning `d.GetOk` reports
not-set.  `scope` and `monitor_tags` are read through plain `d.Get`, which
returns the (possibly empty) list, so they are plain lists here.  `id` is
the resource identifier string `d.Id()`.  `hasChange` is the drift
information behind `d.HasChange`, opaque to this module and hence a
function parameter. -/
structure DowntimeConfig where
  id : String := ""
  active : Bool := false
  disabled : Bool := false
  start : Option Int := none
  start_date : Option String := none
  dtEnd : Option Int := none
  end_date : Option String := none
  timezone : Option String := none
  message : Option String := none
  recurrence : Option RecurrenceConfig := none
  scope : List String := []
  monitor_id : Option Int := none
  monitor_tags : List String := []
  hasChange : String → Bool := fun _ => false

/-- Digit-accumulation loop of the decimal parser. -/
def parseDigits : List Char → Nat → Option Nat
  | [], acc => some acc
  | c :: rest, acc =>
    if c.isDigit then parseDigits rest (acc * 10 + (c.toNat - 48)) else none

/-- Go `strconv.ParseInt(s, 10, 64)` of the standard library, as used on
the identifier string: an optional sign followed by at least one decimal
digit (the 64-bit range check is not modelled; every identifier appearing
here is small). -/
def parseInt10 (s : String) : Option Int :=
  match s.toList with
  | [] => none
  | c :: rest =>
    if c = '-' then
      match rest with
      | [] => none
      | _ => (parseDigits rest 0).map (fun n => -(n : Int))
    else if c = '+' then
      match rest with
      | [] => none
      | _ => (parseDigits rest 0).map (fun n => (n : Int))
    else (parseDigits (c :: rest) 0).map (fun n => (n : Int))

/-- Go `strings.TrimSpace`: drop leading and trailing whitespace. -/
def trimSpace (s : String) : String :=
  String.mk (((s.toList.dropWhile Char.isWhitespace).reverse.dropWhile
    Char.isWhitespace).reverse)

/-- `getDowntimeBoundaryTimestamp` (source lines 179-190): returns the
effective epoch timestamp of a boundary and the name of the attribute that
supplied it.  If the date attribute is set, an RFC3339 parse is attempted;
on success its epoch value is returned tagged with the date attribute name,
on failure the zero result `(0, "")` is returned — the integer attribute is
NOT consulted, because the `else if` branch of the source only runs when
`d.GetOk(dateAttr)` is false.  The RFC3339 parser (`time.Parse` of the Go
standard library) is the `parse` parameter. -/
def getDowntimeBoundaryTimestamp (parse : String → Option Int)
    (dateAttr tsAttr : String) (dateVal : Option String) (tsVal : Option Int) :
    Int × String :=
  match dateVal with
  | some s =>
    match parse s with
    | some t => (t, dateAttr)
    | none => (0, "")
  | none =>
    match tsVal with
    | some v => (v, tsAttr)
    | none => (0, "")

/-- `downtimeBoundaryNeedsApply` (source lines 199-218): whether a boundary
should be included in the outbound request.  `tsFrom` is the attribute name
returned by `getDowntimeBoundaryTimestamp`, empty when the boundary was not
supplied. -/
def downtimeBoundaryNeedsApply (hasChange : String → Bool) (tsFrom : String)
    (apiTs configTs : Int) (updating : Bool) : Bool :=
  if tsFrom = "" then false
  else if updating then (apiTs != configTs || hasChange tsFrom)
  else true

/-- The recurrence block of `buildDowntimeStruct` (source lines 256-283):
each sub-attribute is copied into the request recurrence only when
`d.GetOk` reports it set. -/
def buildRecurrence (rc : RecurrenceConfig) : DowntimeRecurrence :=
  { period := rc.period
    rtype := rc.rtype
    untilDate := rc.untilDate
    untilOccurrences := rc.untilOccurrences
    weekDays := rc.weekDays
    rrule := rc.rrule }

/-- The field-mapping body of `buildDowntimeStruct` (source lines 245-304),
given the current remote boundary values (zero in create mode).  The source
mutates a single fresh `datadogV1.Downtime`; since every conditional setter
targets a distinct field, the net result is this record:
end/start are set only when `downtimeBoundaryNeedsApply` says so; message
(trimmed), monitor_id and timezone are set only when `d.GetOk` reports them
set; recurrence is built when the block is present; scope and monitor_tags
are ALWAYS set (lines 284-293 call `SetScope`/`SetMonitorTags`
unconditionally on the lists read through `d.Get`). -/
def buildDowntimeBody (cfg : DowntimeConfig) (parse : String → Option Int)
    (currentStart currentEnd : Int) (updating : Bool) : Downtime :=
  let endRes := getDowntimeBoundaryTimestamp parse "end_date" "end"
    cfg.end_date cfg.dtEnd
  let startRes := getDowntimeBoundaryTimestamp parse "start_date" "start"
    cfg.start_date cfg.start
  { dtEnd :=
      if downtimeBoundaryNeedsApply cfg.hasChange endRes.2 currentEnd
          endRes.1 updating
      then some endRes.1 else none
    message := cfg.message.map trimSpace
    monitorId := cfg.monitor_id
    recurrence := cfg.recurrence.map buildRecurrence
    scope := some cfg.scope
    monitorTags := some cfg.monitor_tags
    start :=
      if downtimeBoundaryNeedsApply cfg.hasChange startRes.2 currentStart
          startRes.1 updating
      then some startRes.1 else none
    timezone := cfg.timezone }

/-- `buildDowntimeStruct` (source lines 220-305).  In update mode the
current remote state is first fetched (its result is the `fetch` parameter)
for the drift comparison; a parse failure of the identifier or a client
error is returned as an error — but the error wrapping reads
`httpresp.Request.URL.Host` without a nil check, so a client error with no
HTTP response is a nil-pointer dereference, not an error return. -/
def buildDowntimeStruct (cfg : DowntimeConfig) (parse : String → Option Int)
    (fetch : FetchResult) (updating : Bool) : Outcome Downtime :=
  if updating then
    match parseInt10 cfg.id with
    | none => Outcome.err "parsing downtime id failed"
    | some _ =>
      match fetch.clientErr with
      | some e =>
        match fetch.httpresp with
        | none => Outcome.nilDeref
        | some r =>
          Outcome.err (translateClientError e r.host "error getting downtime")
      | none =>
        Outcome.ok (buildDowntimeBody cfg parse fetch.dt.GetStart
          fetch.dt.GetEnd updating)
  else
    Outcome.ok (buildDowntimeBody cfg parse 0 0 false)

/-- One `d.Set` call performed by `updateDowntimeState` (source lines
353-421), identified by the attribute written and carrying the written
value.  The `recurrence` write carries the map built on lines 378-403: a
key is present in that map exactly when the corresponding remote recurrence
field is present, so the map is the remote recurrence record itself. -/
inductive FieldWrite where
  | active (b : Bool)
  | disabled (b : Bool)
  | dtEnd (n : Int)
  | message (s : String)
  | monitor_id (n : Int)
  | timezone (s : String)
  | recurrence (r : DowntimeRecurrence)
  | scope (l : List String)
  | monitor_tags (l : List String)
  | start (n : Int)
deriving DecidableEq, Repr

/-- The configuration attribute name a `FieldWrite` targets. -/
def FieldWrite.attrName : FieldWrite → String
  | .active _ => "active"
  | .disabled _ => "disabled"
  | .dtEnd _ => "end"
  | .message _ => "message"
  | .monitor_id _ => "monitor_id"
  | .timezone _ => "timezone"
  | .recurrence _ => "recurrence"
  | .scope _ => "scope"
  | .monitor_tags _ => "monitor_tags"
  | .start _ => "start"

/-- The sequence of `d.Set` calls `updateDowntimeState` (source lines
353-421) attempts, in source order: active, disabled, end, message always;
monitor_id only when the remote field is present; timezone always;
recurrence only when the remote block is present; scope always;
monitor_tags unless the remote value is exactly the sentinel list
consisting of the single tag star (the `reflect.DeepEqual` check on line
412); start always. -/
def downtimeStateCandidates (dt : Downtime) : List FieldWrite :=
  [FieldWrite.active dt.GetActive,
   FieldWrite.disabled dt.GetDisabled,
   FieldWrite.dtEnd dt.GetEnd,
   FieldWrite.message dt.GetMessage]
  ++ (match dt.monitorId with
      | some v => [FieldWrite.monitor_id v]
      | none => [])
  ++ [FieldWrite.timezone dt.GetTimezone]
  ++ (match dt.recurrence with
      | some r => [FieldWrite.recurrence r]
      | none => [])
  ++ [FieldWrite.scope dt.GetScope]
  ++ (if dt.GetMonitorTags = ["*"] then []
      else [FieldWrite.monitor_tags dt.GetMonitorTags])
  ++ [FieldWrite.start dt.GetStart]

/-- Run a sequence of `d.Set` calls the way the source does: each failed
write (`setOk` says which attribute writes fail) returns its error
immediately, so the performed writes are the successful prefix and the
reported failure is the first failing attribute. -/
def runWrites (setOk : String → Bool) : List FieldWrite →
    List FieldWrite × Option String
  | [] => ([], none)
  | w :: rest =>
    if setOk w.attrName then
      let res := runWrites setOk rest
      (w :: res.1, res.2)
    else ([], some w.attrName)

/-- `updateDowntimeState` (source lines 353-421): project the remote
downtime into the local configuration.  Returns the writes performed and
the first write failure, if any. -/
def updateDowntimeState (dt : Downtime) (setOk : String → Bool) :
    List FieldWrite × Option String :=
  runWrites setOk (downtimeStateCandidates dt)

/-- Go `d.GetOk` reports an integer attribute as set only when it is
nonzero; writing zero is indistinguishable from leaving it unset. -/
def getOkInt (n : Int) : Option Int := if n = 0 then none else some n

/-- Go `d.GetOk` reports a string attribute as set only when nonempty. -/
def getOkStr (s : String) : Option String := if s = "" then none else some s

/-- Go `d.GetOk` reports a list attribute as set only when nonempty. -/
def getOkList (l : List String) : Option (List String) :=
  if l = [] then none else some l

/-- Modelled from the spec: the configuration accessor (the terraform SDK
`d.Set`/`d.GetOk` pair, external to this module) persists a projected
recurrence block; a sub-attribute missing from the written map, or written
as its zero value, is afterwards reported by `d.GetOk` as not set. -/
def applyRecurrenceWrite (r : DowntimeRecurrence) : RecurrenceConfig :=
  { period := r.period.bind getOkInt
    rtype := r.rtype.bind getOkStr
    untilDate := r.untilDate.bind getOkInt
    untilOccurrences := r.untilOccurrences.bind getOkInt
    weekDays := r.weekDays.bind getOkList
    rrule := r.rrule.bind getOkStr }

/-- Modelled from the spec: the configuration accessor write semantics
(`d.Set`, external to this module) — a performed `FieldWrite` updates the
corresponding attribute of the local configuration, with zero values
becoming not-set for the attributes later read through `d.GetOk`. -/
def applyWrite (cfg : DowntimeConfig) : FieldWrite → DowntimeConfig
  | .active b => { cfg with active := b }
  | .disabled b => { cfg with disabled := b }
  | .dtEnd n => { cfg with dtEnd := getOkInt n }
  | .message s => { cfg with message := getOkStr s }
  | .monitor_id n => { cfg with monitor_id := getOkInt n }
  | .timezone s => { cfg with timezone := getOkStr s }
  | .recurrence r => { cfg with recurrence := some (applyRecurrenceWrite r) }
  | .scope l => { cfg with scope := l }
  | .monitor_tags l => { cfg with monitor_tags := l }
  | .start n => { cfg with start := getOkInt n }

/-- Effect of a successful read: whether the local identifier was cleared
(`d.SetId` with the empty string) and the state writes performed. -/
structure ReadEffect where
  idCleared : Bool
  writes : List FieldWrite
deriving DecidableEq, Repr

/-- `resourceDatadogDowntimeRead` (source lines 326-351).  The identifier
is parsed, the remote downtime fetched (the `fetch` parameter).  On a
client error: a response with status 404 clears the identifier and returns
success with no writes; any other response yields a translated error; NO
response means the error wrapping dereferences the nil response
(`httpresp.Request.URL.Host` on line 342) — a runtime panic.  Without a
client error, a present `canceled` marker clears the identifier and
returns success with no writes; otherwise the remote state is projected. -/
def resourceDatadogDowntimeRead (idStr : String) (fetch : FetchResult)
    (setOk : String → Bool) : Outcome ReadEffect :=
  match parseInt10 idStr with
  | none => Outcome.err "parsing downtime id failed"
  | some _ =>
    match fetch.clientErr with
    | some e =>
      match fetch.httpresp with
      | some r =>
        if r.statusCode = 404 then Outcome.ok ⟨true, []⟩
        else Outcome.err (translateClientError e r.host "error getting downtime")
      | none => Outcome.nilDeref
    | none =>
      if fetch.dt.canceled.isSome then Outcome.ok ⟨true, []⟩
      else
        match updateDowntimeState fetch.dt setOk with
        | (ws, none) => Outcome.ok ⟨false, ws⟩
        | (_, some f) => Outcome.err ("error setting " ++ f)

/-- Effect of a successful update: the request passed to `UpdateDowntime`,
the identifier stored into the local configuration afterwards (the
`d.SetId` on source line 445), and the state writes performed for the
returned downtime. -/
structure UpdateEffect where
  requestSent : Downtime
  newId : String
  writes : List FieldWrite
deriving DecidableEq, Repr

/-- `resourceDatadogDowntimeUpdate` (source lines 423-448): build the
request in update mode (`buildFetch` is the result of the drift pre-fetch
inside the builder), parse the local identifier and force it into the
request (`dt.SetId(id)` on line 438), invoke the remote update (`updCall`),
then store `strconv.FormatInt(dt.GetId(), 10)` — the id of the REQUEST
`dt`, not of the returned `updatedDowntime` — as the local identifier
(line 445), and project the returned downtime.  The update-error wrapping
has the same unchecked response dereference as the read (line 442). -/
def resourceDatadogDowntimeUpdate (cfg : DowntimeConfig)
    (parse : String → Option Int) (buildFetch : FetchResult)
    (updCall : Downtime → FetchResult) (setOk : String → Bool) :
    Outcome UpdateEffect :=
  match buildDowntimeStruct cfg parse buildFetch true with
  | Outcome.nilDeref => Outcome.nilDeref
  | Outcome.err e =>
    Outcome.err ("failed to parse resource configuration: " ++ e)
  | Outcome.ok dt0 =>
    match parseInt10 cfg.id with
    | none => Outcome.err "parsing downtime id failed"
    | some id =>
      let dt := { dt0 with id := some id }
      let res := updCall dt
      match res.clientErr with
      | some e =>
        match res.httpresp with
        | none => Outcome.nilDeref
        | some r =>
          Outcome.err (translateClientError e r.host "error updating downtime")
      | none =>
        let newId := toString (dt.id.getD 0)
        match updateDowntimeState res.dt setOk with
        | (ws, none) => Outcome.ok ⟨dt, newId, ws⟩
        | (_, some f) => Outcome.err ("error setting " ++ f)

/-- The `ConflictsWith` declarations of the resource schema (source lines
34-171), keyed by attribute path; the sub-attributes of the single
`recurrence` block are keyed by their full path, mirroring the paths the
source writes in the `ConflictsWith` lists themselves. -/
def downtimeSchemaConflicts : List (String × List String) :=
  [( "start_date", [ "start" ]),
   ( "end_date", [ "end" ]),
   ( "recurrence.until_date", [ "recurrence.until_occurrences" ]),
   ( "recurrence.until_occurrences", [ "recurrence.until_date" ]),
   ( "recurrence.rrule",
     [ "recurrence.period", "recurrence.until_date",
       "recurrence.until_occurrences", "recurrence.week_days" ]),
   ( "monitor_id", [ "monitor_tags" ]),
   ( "monitor_tags", [ "monitor_id" ])]

/-- Whether the configuration sets the attribute at the given path. -/
def attrIsSet (cfg : DowntimeConfig) (a : String) : Bool :=
  if a = "start" then cfg.start.isSome
  else if a = "start_date" then cfg.start_date.isSome
  else if a = "end" then cfg.dtEnd.isSome
  else if a = "end_date" then cfg.end_date.isSome
  else if a = "timezone" then cfg.timezone.isSome
  else if a = "message" then cfg.message.isSome
  else if a = "monitor_id" then cfg.monitor_id.isSome
  else if a = "monitor_tags" then !cfg.monitor_tags.isEmpty
  else if a = "recurrence.period" then (cfg.recurrence.bind (·.period)).isSome
  else if a = "recurrence.until_date" then
    (cfg.recurrence.bind (·.untilDate)).isSome
  else if a = "recurrence.until_occurrences" then
    (cfg.recurrence.bind (·.untilOccurrences)).isSome
  else if a = "recurrence.week_days" then
    (cfg.recurrence.bind (·.weekDays)).isSome
  else if a = "recurrence.rrule" then (cfg.recurrence.bind (·.rrule)).isSome
  else false

/-- Modelled from the spec: the schema validation engine of the hosting
framework (external to this module) rejects, before any lifecycle function
runs, every configuration that sets an attribute together with a member of
its declared `ConflictsWith` list. -/
def schemaRejects (cfg : DowntimeConfig) : Bool :=
  downtimeSchemaConflicts.any fun pr =>
    attrIsSet cfg pr.1 && pr.2.any fun b => attrIsSet cfg b

/-- The conflicting attribute pairs enumerated by the mutual-exclusion
property. -/
def claimedConflictPairs : List (String × String) :=
  [( "start", "start_date"),
   ( "end", "end_date"),
   ( "monitor_id", "monitor_tags"),
   ( "recurrence.until_date", "recurrence.until_occurrences"),
   ( "recurrence.rrule", "recurrence.period"),
   ( "recurrence.rrule", "recurrence.until_date"),
   ( "recurrence.rrule", "recurrence.until_occurrences"),
   ( "recurrence.rrule", "recurrence.week_days")]

theorem runWrites_eq (setOk : String → Bool) (l : List FieldWrite) :
    runWrites setOk l
      = (l.takeWhile (fun w => setOk w.attrName),
         (l.dropWhile (fun w => setOk w.attrName)).head?.map FieldWrite.attrName) := by
  induction l with
  | nil => simp [runWrites]
  | cons w rest ih =>
    cases h : setOk w.attrName with
    | true => simp [runWrites, h, ih]
    | false => simp [runWrites, h]

theorem runWrites_all_succeed (l : List FieldWrite) :
    runWrites (fun _ => true) l = (l, none) := by
  induction l with
  | nil => simp [runWrites]
  | cons w rest ih => simp [runWrites, ih]

/-- Claim C7: for every remote downtime and every write-failure oracle, the
state projection performs exactly the writes of the longest prefix of its
write sequence on which the configuration accessor succeeds, and reports
the attribute of the first failing write as its error — so after the first
write failure no further field write is attempted and the failure is
returned immediately (and when no write fails, no error is reported). -/
theorem updateDowntimeState_stops_at_first_failure (dt : Downtime)
    (setOk : String → Bool) :
    updateDowntimeState dt setOk
      = ((downtimeStateCandidates dt).takeWhile (fun w => setOk w.attrName),
         ((downtimeStateCandidates dt).dropWhile
           (fun w => setOk w.attrName)).head?.map FieldWrite.attrName) :=
  runWrites_eq setOk _

/-- Claim C4: with every write succeeding, the state projection writes
`monitor_tags` verbatim (the exact remote list, interpreted by the schema
as an unordered set) whenever the remote value is not exactly the sentinel
single-element list of the star tag; when the remote value is exactly that
sentinel, no `monitor_tags` write whatsoever is performed; and any
performed `monitor_tags` write carries the remote value verbatim. -/
theorem updateDowntimeState_monitor_tags_sentinel (dt : Downtime) :
    (dt.GetMonitorTags ≠ [ "*" ] →
      FieldWrite.monitor_tags dt.GetMonitorTags
        ∈ (updateDowntimeState dt (fun _ => true)).1)
    ∧ (dt.GetMonitorTags = [ "*" ] →
      ∀ l, FieldWrite.monitor_tags l ∉ (updateDowntimeState dt (fun _ => true)).1)
    ∧ (∀ l, FieldWrite.monitor_tags l ∈ (updateDowntimeState dt (fun _ => true)).1 →
      l = dt.GetMonitorTags) := by
  have hws : (updateDowntimeState dt (fun _ => true)).1 = downtimeStateCandidates dt := by
    rw [updateDowntimeState, runWrites_all_succeed]
  rw [hws]
  refine ⟨?_, ?_, ?_⟩
  · intro h
    rcases hmid : dt.monitorId with _ | v <;> rcases hrec : dt.recurrence with _ | r <;>
      simp [downtimeStateCandidates, hmid, hrec, h]
  · intro h l
    rcases hmid : dt.monitorId with _ | v <;> rcases hrec : dt.recurrence with _ | r <;>
      simp [downtimeStateCandidates, hmid, hrec, h]
  · intro l hl
    by_cases hs : dt.GetMonitorTags = [ "*" ]
    · rcases hmid : dt.monitorId with _ | v <;> rcases hrec : dt.recurrence with _ | r <;>
        simp [downtimeStateCandidates, hmid, hrec, hs] at hl
    · rcases hmid : dt.monitorId with _ | v <;> rcases hrec : dt.recurrence with _ | r <;>
        simp [downtimeStateCandidates, hmid, hrec, hs] at hl <;> exact hl

/-- Witness for claim C4 at concrete remote downtimes: a list containing
the star tag alongside another tag is written verbatim, the exact sentinel
list is never written. -/
theorem updateDowntimeState_monitor_tags_sentinel_witness :
    FieldWrite.monitor_tags [ "a", "*" ]
      ∈ (updateDowntimeState { monitorTags := some [ "a", "*" ] } (fun _ => true)).1
    ∧ FieldWrite.monitor_tags [ "*" ]
      ∉ (updateDowntimeState { monitorTags := some [ "*" ] } (fun _ => true)).1 :=
  ⟨(updateDowntimeState_monitor_tags_sentinel _).1 (by decide),
   (updateDowntimeState_monitor_tags_sentinel _).2.1 (by decide) _⟩

/-- Name of the date-string attribute of a boundary (start or end). -/
def boundaryDateAttr (isStart : Bool) : String :=
  if isStart then "start_date" else "end_date"

/-- Name of the integer-timestamp attribute of a boundary. -/
def boundaryTsAttr (isStart : Bool) : String :=
  if isStart then "start" else "end"

/-- Configured value of the date-string attribute of a boundary. -/
def boundaryDateVal (cfg : DowntimeConfig) (isStart : Bool) : Option String :=
  if isStart then cfg.start_date else cfg.end_date

/-- Configured value of the integer-timestamp attribute of a boundary. -/
def boundaryTsVal (cfg : DowntimeConfig) (isStart : Bool) : Option Int :=
  if isStart then cfg.start else cfg.dtEnd

/-- The boundary resolver as invoked at the two call sites of
`buildDowntimeStruct` (source lines 245 and 295), for either boundary. -/
def resolveBoundary (cfg : DowntimeConfig) (parse : String → Option Int)
    (isStart : Bool) : Int × String :=
  getDowntimeBoundaryTimestamp parse (boundaryDateAttr isStart)
    (boundaryTsAttr isStart) (boundaryDateVal cfg isStart)
    (boundaryTsVal cfg isStart)

/-- Claim C1: for every configuration and boundary (start or end), when the
boundary is not supplied by either of its attributes — both unset, so the
resolver tags it as unset — the apply-decision is false in both create and
update mode; when the boundary is supplied (the resolver names a supplying
attribute), the apply-decision in create mode is always true, and in update
mode it is true exactly when the server-side current value differs from the
configured value or the supplying attribute has changed since the last
known state. -/
theorem downtimeBoundaryNeedsApply_spec (cfg : DowntimeConfig)
    (parse : String → Option Int) (isStart : Bool) (apiTs : Int) :
    (boundaryDateVal cfg isStart = none → boundaryTsVal cfg isStart = none →
      ∀ updating, downtimeBoundaryNeedsApply cfg.hasChange
        (resolveBoundary cfg parse isStart).2 apiTs
        (resolveBoundary cfg parse isStart).1 updating = false)
    ∧ ((resolveBoundary cfg parse isStart).2 ≠ "" →
      downtimeBoundaryNeedsApply cfg.hasChange
        (resolveBoundary cfg parse isStart).2 apiTs
        (resolveBoundary cfg parse isStart).1 false = true)
    ∧ ((resolveBoundary cfg parse isStart).2 ≠ "" →
      (downtimeBoundaryNeedsApply cfg.hasChange
          (resolveBoundary cfg parse isStart).2 apiTs
          (resolveBoundary cfg parse isStart).1 true = true
        ↔ (apiTs ≠ (resolveBoundary cfg parse isStart).1
            ∨ cfg.hasChange (resolveBoundary cfg parse isStart).2 = true))) := by
  refine ⟨?_, ?_, ?_⟩
  · intro h1 h2 updating
    simp [resolveBoundary, getDowntimeBoundaryTimestamp, h1, h2,
      downtimeBoundaryNeedsApply]
  · intro h
    simp [downtimeBoundaryNeedsApply, h]
  · intro h
    simp [downtimeBoundaryNeedsApply, h, bne_iff_ne, ne_comm]

/-- A concrete model of the external RFC3339 parser used by witnesses. -/
def parseRFC3339W : String → Option Int :=
  fun s => if s = "2020-01-01T00:00:00Z" then some 1577836800 else none

/-- A concrete configuration whose start boundary is supplied by the
integer attribute. -/
def cfgStartTs : DowntimeConfig := { start := some 1700000000 }

/-- Witness for claim C1 at concrete configurations: with both start
attributes unset the update-mode apply-decision is false; with `start`
supplied the create-mode apply-decision is true. -/
theorem downtimeBoundaryNeedsApply_spec_witness :
    downtimeBoundaryNeedsApply ({} : DowntimeConfig).hasChange
      (resolveBoundary {} parseRFC3339W true).2 7
      (resolveBoundary {} parseRFC3339W true).1 true = false
    ∧ downtimeBoundaryNeedsApply cfgStartTs.hasChange
      (resolveBoundary cfgStartTs parseRFC3339W true).2 7
      (resolveBoundary cfgStartTs parseRFC3339W true).1 false = true :=
  ⟨(downtimeBoundaryNeedsApply_spec {} parseRFC3339W true 7).1 rfl rfl true,
   (downtimeBoundaryNeedsApply_spec cfgStartTs parseRFC3339W true 7).2.1 (by decide)⟩

/-- Claim C2: the boundary timestamp resolver returns the parsed epoch
value tagged with the date attribute name when the date attribute is set
and parses; the integer attribute value tagged with its name when the date
attribute is unset and the integer attribute is set; the zero value tagged
as unset when both are unset; and — the malformed case — when the date
attribute is set but fails to parse, no error is raised (the resolver
cannot return one) and the result is the same zero-tagged-unset value as
for an absent boundary. -/
theorem getDowntimeBoundaryTimestamp_spec (parse : String → Option Int)
    (dateAttr tsAttr : String) (dateVal : Option String) (tsVal : Option Int) :
    (∀ s t, dateVal = some s → parse s = some t →
      getDowntimeBoundaryTimestamp parse dateAttr tsAttr dateVal tsVal
        = (t, dateAttr))
    ∧ (∀ v, dateVal = none → tsVal = some v →
      getDowntimeBoundaryTimestamp parse dateAttr tsAttr dateVal tsVal
        = (v, tsAttr))
    ∧ (dateVal = none → tsVal = none →
      getDowntimeBoundaryTimestamp parse dateAttr tsAttr dateVal tsVal
        = (0, ""))
    ∧ (∀ s, dateVal = some s → parse s = none →
      getDowntimeBoundaryTimestamp parse dateAttr tsAttr dateVal tsVal
        = (0, "")) := by
  refine ⟨?_, ?_, ?_, ?_⟩ <;> intros <;> subst_vars <;>
    simp [getDowntimeBoundaryTimestamp, *]

/-- Witness for claim C2 at concrete inputs, one per case: a well-formed
date string, an integer-supplied boundary, an absent boundary, and a
malformed date string. -/
theorem getDowntimeBoundaryTimestamp_spec_witness :
    getDowntimeBoundaryTimestamp parseRFC3339W "end_date" "end"
      (some "2020-01-01T00:00:00Z") none = (1577836800, "end_date")
    ∧ getDowntimeBoundaryTimestamp parseRFC3339W "end_date" "end"
      none (some 5) = (5, "end")
    ∧ getDowntimeBoundaryTimestamp parseRFC3339W "end_date" "end"
      none none = (0, "")
    ∧ getDowntimeBoundaryTimestamp parseRFC3339W "end_date" "end"
      (some "totally-bogus") none = (0, "") :=
  ⟨(getDowntimeBoundaryTimestamp_spec parseRFC3339W "end_date" "end" _ _).1
      _ _ rfl (by decide),
   (getDowntimeBoundaryTimestamp_spec parseRFC3339W "end_date" "end" _ _).2.1
      _ rfl rfl,
   (getDowntimeBoundaryTimestamp_spec parseRFC3339W "end_date" "end" _ _).2.2.1
      rfl rfl,
   (getDowntimeBoundaryTimestamp_spec parseRFC3339W "end_date" "end" _ _).2.2.2
      _ rfl (by decide)⟩

/-- A configuration with `monitor_tags` unset (the empty set). -/
def cfgNoTags : DowntimeConfig := { id := "1", scope := [ "host:web-1" ] }

/-- Extract the `monitor_tags` field of a successfully built request:
`none` when the build failed, otherwise `some` of the field — whose inner
`none` would mean the field was omitted from the request. -/
def builtMonitorTagsField (o : Outcome Downtime) : Option (Option (List String)) :=
  match o with
  | Outcome.ok r => some r.monitorTags
  | _ => none

/-- Claim C5, counterexample: for a configuration with `monitor_tags`
unset, the built request does NOT omit the `monitor_tags` field — the
builder calls `SetMonitorTags` unconditionally (source line 293), so the
field is present, explicitly set to the empty list. -/
theorem buildDowntimeStruct_sends_empty_monitor_tags :
    builtMonitorTagsField
      (buildDowntimeStruct cfgNoTags (fun _ => none) {} false)
      = some (some []) := by decide

/-- Claim C5 as amended: for every configuration the built request always
carries the `monitor_tags` field, set to the configured (possibly empty)
tag list; each of `message` (trimmed), `monitor_id` and `timezone` is
included in the request exactly when set in the configuration. -/
theorem buildDowntimeStruct_optional_fields (cfg : DowntimeConfig)
    (parse : String → Option Int) (fdt : Downtime) (resp : Option HTTPResp)
    (updating : Bool) (hid : (parseInt10 cfg.id).isSome = true) :
    ∃ dt, buildDowntimeStruct cfg parse ⟨fdt, resp, none⟩ updating
        = Outcome.ok dt
      ∧ dt.monitorTags = some cfg.monitor_tags
      ∧ dt.message = cfg.message.map trimSpace
      ∧ dt.monitorId = cfg.monitor_id
      ∧ dt.timezone = cfg.timezone := by
  cases updating with
  | false =>
    exact ⟨buildDowntimeBody cfg parse 0 0 false, rfl, rfl, rfl, rfl, rfl⟩
  | true =>
    obtain ⟨n, hn⟩ := Option.isSome_iff_exists.mp hid
    have h : buildDowntimeStruct cfg parse ⟨fdt, resp, none⟩ true
        = Outcome.ok (buildDowntimeBody cfg parse fdt.GetStart fdt.GetEnd true) := by
      simp [buildDowntimeStruct, hn]
    exact ⟨_, h, rfl, rfl, rfl, rfl⟩

/-- A configuration exercising each optional field of the request builder. -/
def cfgOptFields : DowntimeConfig :=
  { id := "7", message := some "  hello  ", monitor_id := some 12,
    timezone := some "UTC", monitor_tags := [ "team:a" ] }

/-- Witness for claim C5 as amended, at a concrete configuration. -/
theorem buildDowntimeStruct_optional_fields_witness :
    ∃ dt, buildDowntimeStruct cfgOptFields (fun _ => none) ⟨{}, none, none⟩ false
        = Outcome.ok dt
      ∧ dt.monitorTags = some cfgOptFields.monitor_tags
      ∧ dt.message = cfgOptFields.message.map trimSpace
      ∧ dt.monitorId = cfgOptFields.monitor_id
      ∧ dt.timezone = cfgOptFields.timezone :=
  buildDowntimeStruct_optional_fields cfgOptFields (fun _ => none) {} none
    false (by decide)

/-- Claim C9: every configuration that sets both members of one of the
enumerated conflicting pairs is rejected by the declared schema
constraints (and hence, per the hosting framework contract, never reaches
the request builder). -/
theorem schemaRejects_conflicting_pairs (cfg : DowntimeConfig) (p q : String)
    (hpq : (p, q) ∈ claimedConflictPairs)
    (hp : attrIsSet cfg p = true) (hq : attrIsSet cfg q = true) :
    schemaRejects cfg = true := by
  fin_cases hpq
  · exact List.any_eq_true.mpr
      ⟨( "start_date", [ "start" ]), by decide, by simp [hp, hq]⟩
  · exact List.any_eq_true.mpr
      ⟨( "end_date", [ "end" ]), by decide, by simp [hp, hq]⟩
  · exact List.any_eq_true.mpr
      ⟨( "monitor_id", [ "monitor_tags" ]), by decide, by simp [hp, hq]⟩
  · exact List.any_eq_true.mpr
      ⟨( "recurrence.until_date", [ "recurrence.until_occurrences" ]),
        by decide, by simp [hp, hq]⟩
  · exact List.any_eq_true.mpr
      ⟨( "recurrence.rrule",
         [ "recurrence.period", "recurrence.until_date",
           "recurrence.until_occurrences", "recurrence.week_days" ]),
        by decide, by simp [hp, hq]⟩
  · exact List.any_eq_true.mpr
      ⟨( "recurrence.rrule",
         [ "recurrence.period", "recurrence.until_date",
           "recurrence.until_occurrences", "recurrence.week_days" ]),
        by decide, by simp [hp, hq]⟩
  · exact List.any_eq_true.mpr
      ⟨( "recurrence.rrule",
         [ "recurrence.period", "recurrence.until_date",
           "recurrence.until_occurrences", "recurrence.week_days" ]),
        by decide, by simp [hp, hq]⟩
  · exact List.any_eq_true.mpr
      ⟨( "recurrence.rrule",
         [ "recurrence.period", "recurrence.until_date",
           "recurrence.until_occurrences", "recurrence.week_days" ]),
        by decide, by simp [hp, hq]⟩

/-- A configuration setting both `start` and `start_date`. -/
def cfgBothStarts : DowntimeConfig :=
  { start := some 1700000000, start_date := some "2023-11-14T22:13:20Z" }

/-- Witness for claim C9 at a concrete configuration setting both members
of the start pair. -/
theorem schemaRejects_conflicting_pairs_witness :
    schemaRejects cfgBothStarts = true :=
  schemaRejects_conflicting_pairs cfgBothStarts "start" "start_date"
    (by decide) (by decide) (by decide)

/-- Claim C3 exhibit: the read behavior at one concrete input per branch.
A 404 response clears the identifier and returns success with no state
writes; a present `canceled` marker does the same; a client error with a
non-404 response returns the translated error.  But a client error with NO
response — e.g. a network failure before any response — does not return an
error: the error-wrapping line dereferences the absent response (source
line 342), a runtime panic, contradicting the claim that every other fetch
error makes read return an error. -/
theorem resourceDatadogDowntimeRead_outcomes :
    resourceDatadogDowntimeRead "42"
      { httpresp := some ⟨404, "api.datadoghq.com"⟩, clientErr := some "not found" }
      (fun _ => true) = Outcome.ok ⟨true, []⟩
    ∧ resourceDatadogDowntimeRead "42"
      { dt := { canceled := some 1700000000 } }
      (fun _ => true) = Outcome.ok ⟨true, []⟩
    ∧ resourceDatadogDowntimeRead "42"
      { httpresp := some ⟨500, "api.datadoghq.com"⟩, clientErr := some "server error" }
      (fun _ => true)
      = Outcome.err
          (translateClientError "server error" "api.datadoghq.com"
            "error getting downtime")
    ∧ resourceDatadogDowntimeRead "42"
      { clientErr := some "connection refused" }
      (fun _ => true) = Outcome.nilDeref := by
  refine ⟨?_, ?_, ?_, ?_⟩ <;> decide

/-- Claim C10 exhibit: a client error carrying no HTTP response makes both
the read operation and the update-mode pre-fetch of the request builder
dereference the absent response (source lines 342 and 239) instead of
returning a normalized error — the error-wrapping branch is not total. -/
theorem errorWrapping_nil_response_dereference :
    resourceDatadogDowntimeRead "7"
      { clientErr := some "dial tcp: i/o timeout" } (fun _ => true)
      = Outcome.nilDeref
    ∧ buildDowntimeStruct { id := "7" } (fun _ => none)
      { clientErr := some "dial tcp: i/o timeout" } true
      = Outcome.nilDeref := by
  refine ⟨?_, ?_⟩ <;> decide

/-- Claim C6 exhibit: update at a concrete input whose remote update call
returns a downtime with identifier 99 while the local identifier is 42.
The request sent carries identifier 42, equal to the local identifier (the
first half of the claim holds); but afterwards the local identifier is
still "42", taken from the request via `dt.GetId()` (source line 445) —
NOT the identifier 99 returned by the remote update operation, so the
second half of the claim fails on the code. -/
theorem resourceDatadogDowntimeUpdate_keeps_request_id :
    resourceDatadogDowntimeUpdate { id := "42" } (fun _ => none) {}
      (fun _ => { dt := { id := some 99 } }) (fun _ => true)
    = Outcome.ok
        { requestSent := { id := some 42, scope := some [], monitorTags := some [] },
          newId := "42",
          writes := [FieldWrite.active false, FieldWrite.disabled false,
            FieldWrite.dtEnd 0, FieldWrite.message "", FieldWrite.timezone "",
            FieldWrite.scope [], FieldWrite.monitor_tags [],
            FieldWrite.start 0] } := by decide

/-- Claim C8 as amended: for every remote downtime whose `monitor_tags` is
not exactly the suppressed sentinel list, projecting it into any local
configuration (with all writes succeeding) and rebuilding a request from
the projected configuration in update mode yields a request whose message
equals the trimmed remote message, whose scope equals the remote scope
with order preserved, and whose monitor tags equal the remote monitor tags
as sets (indeed verbatim).  For a remote value of exactly the sentinel the
projection suppresses the field and the rebuilt request keeps whatever the
prior configuration held, so the set equality can fail there. -/
theorem roundtrip_update_mode (cfg0 : DowntimeConfig) (dt fdt : Downtime)
    (parse : String → Option Int) (resp : Option HTTPResp)
    (hid : (parseInt10 cfg0.id).isSome = true)
    (hsent : dt.GetMonitorTags ≠ [ "*" ]) :
    ∃ req,
      buildDowntimeStruct
        (((updateDowntimeState dt (fun _ => true)).1).foldl applyWrite cfg0)
        parse ⟨fdt, resp, none⟩ true = Outcome.ok req
      ∧ req.GetMessage = trimSpace dt.GetMessage
      ∧ req.GetScope = dt.GetScope
      ∧ (∀ x, x ∈ req.GetMonitorTags ↔ x ∈ dt.GetMonitorTags) := by
  have hws : (updateDowntimeState dt (fun _ => true)).1
      = downtimeStateCandidates dt := by
    rw [updateDowntimeState, runWrites_all_succeed]
  rw [hws]
  have hfields :
      ((downtimeStateCandidates dt).foldl applyWrite cfg0).id = cfg0.id
      ∧ ((downtimeStateCandidates dt).foldl applyWrite cfg0).message
          = getOkStr dt.GetMessage
      ∧ ((downtimeStateCandidates dt).foldl applyWrite cfg0).scope = dt.GetScope
      ∧ ((downtimeStateCandidates dt).foldl applyWrite cfg0).monitor_tags
          = dt.GetMonitorTags := by
    rcases hmid : dt.monitorId with _ | v <;>
      rcases hrec : dt.recurrence with _ | r <;>
        simp [downtimeStateCandidates, hmid, hrec, hsent, applyWrite]
  obtain ⟨hcid, hmsg, hscope, htags⟩ := hfields
  have hid2 : (parseInt10
      ((downtimeStateCandidates dt).foldl applyWrite cfg0).id).isSome = true := by
    rw [hcid]; exact hid
  obtain ⟨n, hn⟩ := Option.isSome_iff_exists.mp hid2
  have hbuild : buildDowntimeStruct
      ((downtimeStateCandidates dt).foldl applyWrite cfg0) parse
      ⟨fdt, resp, none⟩ true
      = Outcome.ok (buildDowntimeBody
          ((downtimeStateCandidates dt).foldl applyWrite cfg0) parse
          fdt.GetStart fdt.GetEnd true) := by
    simp [buildDowntimeStruct, hn]
  refine ⟨_, hbuild, ?_, ?_, ?_⟩
  · have hb : (buildDowntimeBody
        ((downtimeStateCandidates dt).foldl applyWrite cfg0) parse
        fdt.GetStart fdt.GetEnd true).message
        = (((downtimeStateCandidates dt).foldl applyWrite cfg0).message).map
            trimSpace := rfl
    rw [Downtime.GetMessage, hb, hmsg]
    by_cases hm : dt.GetMessage = ""
    · rw [hm]; decide
    · simp [getOkStr, hm]
  · have hb : (buildDowntimeBody
        ((downtimeStateCandidates dt).foldl applyWrite cfg0) parse
        fdt.GetStart fdt.GetEnd true).scope
        = some (((downtimeStateCandidates dt).foldl applyWrite cfg0).scope) := rfl
    rw [Downtime.GetScope, hb, hscope, Option.getD_some]
  · intro x
    have hb : (buildDowntimeBody
        ((downtimeStateCandidates dt).foldl applyWrite cfg0) parse
        fdt.GetStart fdt.GetEnd true).monitorTags
        = some (((downtimeStateCandidates dt).foldl
            applyWrite cfg0).monitor_tags) := rfl
    rw [Downtime.GetMonitorTags, hb, htags, Option.getD_some]

/-- A remote downtime for the round-trip witness: untrimmed message,
ordered scope, non-sentinel tags. -/
def roundtripDt : Downtime :=
  { message := some "  hello  ", scope := some [ "s2", "s1" ],
    monitorTags := some [ "team:a" ] }

/-- Witness for claim C8 as amended, at a concrete remote downtime and a
fresh configuration. -/
theorem roundtrip_update_mode_witness :
    ∃ req,
      buildDowntimeStruct
        (((updateDowntimeState roundtripDt (fun _ => true)).1).foldl
          applyWrite { id := "1" })
        (fun _ => none) ⟨{}, none, none⟩ true = Outcome.ok req
      ∧ req.GetMessage = trimSpace roundtripDt.GetMessage
      ∧ req.GetScope = roundtripDt.GetScope
      ∧ (∀ x, x ∈ req.GetMonitorTags ↔ x ∈ roundtripDt.GetMonitorTags) :=
  roundtrip_update_mode { id := "1" } roundtripDt {} (fun _ => none) none
    (by decide) (by decide)

/-- A remote downtime carrying exactly the sentinel monitor tags. -/
def roundtripSentinelDt : Downtime := { monitorTags := some [ "*" ] }

/-- The configuration obtained by projecting the sentinel downtime into a
fresh configuration with all writes succeeding. -/
def roundtripSentinelCfg : DowntimeConfig :=
  ((updateDowntimeState roundtripSentinelDt (fun _ => true)).1).foldl
    applyWrite { id := "1" }

/-- Claim C8, counterexample: for a remote downtime whose `monitor_tags`
is exactly the sentinel list, the projection suppresses the field, so the
request rebuilt in update mode carries the empty tag list while the
original remote value is the one-element star list — the star tag is in
the original but not in the rebuilt request, so the round-trip is not
set-equal on `monitor_tags`. -/
theorem roundtrip_sentinel_loses_tags :
    builtMonitorTagsField
      (buildDowntimeStruct roundtripSentinelCfg (fun _ => none) {} true)
      = some (some [])
    ∧ roundtripSentinelDt.GetMonitorTags = [ "*" ]
    ∧ ¬ ( "*" ∈ ([] : List String)) := by
  refine ⟨?_, ?_, ?_⟩ <;> decide
